import Mathlib

/-!
Verification development for the Optris thermal-camera debug tool
(`optris_camera_debug_tool.py`).

The embedding follows the Python source closely:

* `Block` records the fields the per-block regular expressions of
  `FormatsDefParser.parse_formats_file` extract from one
  `[Format] ... [Format end]` section of `Formats.def` (each field is
  optional exactly when the corresponding regex may fail to match; the
  deprecation marker is the substring test
  `"this format is deprecated" in block.lower()`).
* `parseFormatsFile` is the catalog-building loop: a Python `dict`
  keyed by GUID (insertion-ordered, value overwritten in place on a
  repeated key) together with a deprecated-GUID set, followed by the
  final filter.
* `getFormatsByResolution` and `groupFormats` embed the query methods;
  `groupFormats` returns `Except` because `fmt['name']` raises
  `KeyError` when the block had no `Name` field.
* `celsius`, `meanTemperature`, `centerIndex` embed the temperature
  conversion of `ThermalCameraApp.update_frame` (floating point is
  modelled by exact rationals).
* `fpsTick` embeds the FPS-accounting lines of `update_frame`,
  `updateFrame` the whole per-tick state transition, `deinitCamera`
  the close path, and `appInitCamera` the post-open configuration
  calls; device-SDK invocations are modelled as an emitted `SdkCall`
  trace.
-/

/-- One retained catalog entry, as built by
`FormatsDefParser.parse_formats_file`: the Python dict `format_info`.
The GUID is always present (blocks without one are skipped before the
dict is created); every other field is present only when its regex
matched. -/
structure FormatInfo where
  guid : String
  name : Option String
  width : Option Nat
  height : Option Nat
  fps : Option ℚ
  hwrev : Option String
  fwrev : Option String
  deviceWidth : Option Nat
  deviceHeight : Option Nat
  deviceFps : Option ℚ
deriving DecidableEq, Repr

/-- The regex-extraction results for one `[Format] ... [Format end]`
block of the catalog file. -/
structure Block where
  guid : Option String
  deprecatedMarker : Bool
  replaces : Option String
  name : Option String
  out : Option (Nat × Nat × ℚ)
  hwrev : Option String
  fwrev : Option String
  deviceRes : Option (Nat × Nat × ℚ)
deriving DecidableEq, Repr

/-- Builds `format_info` for a non-deprecated block whose GUID matched:
lines 58-102 of the source. -/
def blockToFormatInfo (g : String) (b : Block) : FormatInfo where
  guid := g
  name := b.name
  width := b.out.map (fun t => t.1)
  height := b.out.map (fun t => t.2.1)
  fps := b.out.map (fun t => t.2.2)
  hwrev := b.hwrev
  fwrev := b.fwrev
  deviceWidth := b.deviceRes.map (fun t => t.1)
  deviceHeight := b.deviceRes.map (fun t => t.2.1)
  deviceFps := b.deviceRes.map (fun t => t.2.2)

/-- Python-dict insertion: an existing key keeps its position and gets
the new value; a fresh key is appended. -/
def dictInsert (m : List (String × FormatInfo)) (k : String) (v : FormatInfo) :
    List (String × FormatInfo) :=
  if m.any (fun p => p.1 == k) then
    m.map (fun p => if p.1 == k then (k, v) else p)
  else
    m ++ [(k, v)]

/-- Python-set insertion (`deprecated_guids.add`). -/
def setAdd (s : List String) (g : String) : List String :=
  if g ∈ s then s else s ++ [g]

/-- The loop state of `parse_formats_file`: `formats_by_guid` and
`deprecated_guids`. -/
structure ParseState where
  formatsByGuid : List (String × FormatInfo)
  deprecatedGuids : List String
deriving DecidableEq, Repr

/-- One iteration of the block loop (lines 50-102): skip a block with
no GUID; a block with the deprecation marker only adds its own GUID to
the deprecated set; otherwise a `replaces {GUID}` reference adds the
referenced GUID to the deprecated set and the parsed format is stored
under its GUID. -/
def processBlock (st : ParseState) (b : Block) : ParseState :=
  match b.guid with
  | none => st
  | some g =>
    if b.deprecatedMarker then
      { st with deprecatedGuids := setAdd st.deprecatedGuids g }
    else
      let deps := match b.replaces with
        | some rg => setAdd st.deprecatedGuids rg
        | none => st.deprecatedGuids
      { formatsByGuid := dictInsert st.formatsByGuid g (blockToFormatInfo g b)
        deprecatedGuids := deps }

/-- The deprecated-GUID set derived from a block list. -/
def deprecatedSetOf (blocks : List Block) : List String :=
  (blocks.foldl processBlock ⟨[], []⟩).deprecatedGuids

/-- `parse_formats_file`: fold the block loop, then retain the formats
whose GUID is not deprecated (line 105). -/
def parseFormatsFile (blocks : List Block) : List FormatInfo :=
  let st := blocks.foldl processBlock ⟨[], []⟩
  (st.formatsByGuid.filter (fun p => !(st.deprecatedGuids.contains p.1))).map
    (fun p => p.2)

/-- `get_formats_by_resolution`: keep the retained formats whose `Out`
width and height equal the query (a missing `Out` field never matches,
as `fmt.get` returns `None` there). -/
def getFormatsByResolution (formats : List FormatInfo) (w h : Nat) :
    List FormatInfo :=
  formats.filter (fun f => f.width == some w && f.height == some h)

/-- Append-to-group insertion used by `get_formats_grouped_by_model`
(`models[model_name].append(fmt)` with first-insertion key order). -/
def multiInsert (m : List (String × List FormatInfo)) (k : String)
    (f : FormatInfo) : List (String × List FormatInfo) :=
  if m.any (fun p => p.1 == k) then
    m.map (fun p => if p.1 == k then (p.1, p.2 ++ [f]) else p)
  else
    m ++ [(k, [f])]

/-- `get_formats_grouped_by_model`: `fmt['name']` raises `KeyError`
when the format has no name, modelled as `Except.error`; a name that
splits to no tokens leaves the format in no group. -/
def groupFormats (models : List (String × List FormatInfo)) :
    List FormatInfo → Except String (List (String × List FormatInfo))
  | [] => Except.ok models
  | f :: rest =>
    match f.name with
    | none => Except.error "KeyError: name"
    | some n =>
      match (n.split Char.isWhitespace).filter (fun s => !s.isEmpty) with
      | [] => groupFormats models rest
      | m :: _ => groupFormats (multiInsert models m f) rest

/-- `get_formats_grouped_by_model` starts from an empty dict. -/
def getFormatsGroupedByModel (formats : List FormatInfo) :
    Except String (List (String × List FormatInfo)) :=
  groupFormats [] formats

/-- Temperature calibration of `update_frame`:
`temp_c = (raw_temp / 10.0) - 100.0` (line 1074), floating point
modelled exactly over the rationals. -/
def celsius (raw : Nat) : ℚ := (raw : ℚ) / 10 - 100

/-- The per-sample converted grid (line 1078). -/
def frameTemperatures (frame : List Nat) : List ℚ := frame.map celsius

/-- `np.mean(temperatures)` (line 1079): sum of the converted samples
over the sample count. -/
def meanTemperature (frame : List Nat) : ℚ :=
  (frameTemperatures frame).sum / (frame.length : ℚ)

/-- `center_index = (height // 2) * width + (width // 2)` (line 1072). -/
def centerIndex (w h : Nat) : Nat := (h / 2) * w + (w / 2)

/-- The raw sample read for the centre pixel (line 1073). -/
def centerRaw (w h : Nat) (frame : List Nat) : Option Nat :=
  frame.get? (centerIndex w h)

/-- The centre temperature published by `update_frame` (line 1074). -/
def centerTempC (w h : Nat) (frame : List Nat) : Option ℚ :=
  (centerRaw w h frame).map celsius

/-- The FPS-accounting fields of `ThermalCameraApp`
(`frame_count`, `fps`, `last_update_time`); wall-clock time is a
rational number of seconds. -/
structure FpsState where
  frameCount : Nat
  fps : ℚ
  lastUpdateTime : ℚ
deriving DecidableEq, Repr

/-- Lines 1061-1069 of `update_frame`: increment the counter; if more
than half a second elapsed since the last recompute, set
`fps = frame_count / elapsed`, move the anchor to the current time and
zero the counter. -/
def fpsTick (st : FpsState) (now : ℚ) : FpsState :=
  let fc := st.frameCount + 1
  let elapsed := now - st.lastUpdateTime
  if elapsed > 1/2 then
    { frameCount := 0, fps := (fc : ℚ) / elapsed, lastUpdateTime := now }
  else
    { st with frameCount := fc }

/-- The recompute condition of the FPS window (`elapsed > 0.5`). -/
def fpsFires (st : FpsState) (now : ℚ) : Prop :=
  now - st.lastUpdateTime > 1/2

instance (st : FpsState) (now : ℚ) : Decidable (fpsFires st now) := by
  unfold fpsFires; infer_instance

/-- A device-SDK invocation, recorded as an event so that the embedding
can speak about which calls a code path issues. -/
inductive SdkCall
  | usbInit
  | terminate
  | setPalette (id : Int)
  | setShutterMode (mode : Int)
  | triggerShutterFlag
deriving DecidableEq, Repr

/-- The state `CameraManager.deinit_camera` can observe: whether
`libirimager.dll` was loaded. The method keeps no closed flag. -/
structure CameraManagerState where
  libirLoaded : Bool
deriving DecidableEq, Repr

/-- `deinit_camera` (lines 299-302): when the library is loaded, call
`evo_irimager_terminate()`; otherwise do nothing. The Python state is
untouched either way; the returned list is the SDK calls issued. -/
def deinitCamera (st : CameraManagerState) :
    CameraManagerState × List SdkCall :=
  if st.libirLoaded then (st, [SdkCall.terminate]) else (st, [])

/-- `ThermalCameraApp.SHUTTER_MODE_AUTO` (line 345). -/
def SHUTTER_MODE_AUTO : Int := 1

/-- `ThermalCameraApp.SHUTTER_MODE_MANUAL` (line 346). -/
def SHUTTER_MODE_MANUAL : Int := 0

/-- `ThermalCameraApp.init_camera` (lines 641-676) after the manager
open either failed (returns `False`, no configuration calls) or
succeeded: it then sets the initial palette and issues
`evo_irimager_set_shutter_mode(1)`; a non-zero status from that call is
only printed (line 674) and the method still returns `True`. -/
def appInitCamera (openOk : Bool) (paletteId : Int) (_shutterRet : Int) :
    Bool × List SdkCall :=
  if openOk then
    (true,
     [SdkCall.setPalette paletteId, SdkCall.setShutterMode SHUTTER_MODE_AUTO])
  else
    (false, [])

/-- The loop state `update_frame` reads or writes, together with the
session parameters the failure-path claim says must stay unchanged. -/
structure LoopState where
  opened : Bool
  thermalWidth : Nat
  thermalHeight : Nat
  paletteId : Int
  shutterMode : Int
  fpsState : FpsState
deriving DecidableEq, Repr

/-- What a successful tick publishes to the consumers. -/
structure Published where
  centerTemp : Option ℚ
  meanTemp : ℚ
  fps : ℚ
deriving DecidableEq, Repr

/-- One tick of `update_frame` (lines 1012-1104): `ret` is the status
of `evo_irimager_get_thermal_palette_image_metadata`; a non-zero status
is printed and the method returns before any state change (lines
1023-1025); otherwise the FPS accounting runs and the centre and mean
temperatures are published. -/
def updateFrame (st : LoopState) (ret : Int) (frame : List Nat) (now : ℚ) :
    LoopState × Option Published :=
  if ret ≠ 0 then
    (st, none)
  else
    let fs := fpsTick st.fpsState now
    ({ st with fpsState := fs },
     some { centerTemp := centerTempC st.thermalWidth st.thermalHeight frame
            meanTemp := meanTemperature frame
            fps := fs.fps })

/-- How a single block contributes to the deprecated-GUID set: a block
with the deprecation marker contributes its own GUID; a non-deprecated
block contributes the GUID its `replaces` line references. -/
def depContrib (b : Block) (x : String) : Prop :=
  ∃ g, b.guid = some g ∧
    ((b.deprecatedMarker = true ∧ g = x) ∨
     (b.deprecatedMarker = false ∧ b.replaces = some x))

/-- The GUIDs carried by the blocks of a file, in order. -/
def blockGuids (blocks : List Block) : List String :=
  blocks.filterMap Block.guid

/-- The map entry a block contributes to `formats_by_guid` (none for a
GUID-less or deprecation-marked block). -/
def nonDeprEntry (b : Block) : Option (String × FormatInfo) :=
  match b.guid with
  | none => none
  | some g =>
    if b.deprecatedMarker then none else some (g, blockToFormatInfo g b)

theorem processBlock_noGuid (st : ParseState) (b : Block)
    (hg : b.guid = none) : processBlock st b = st := by
  unfold processBlock; rw [hg]

theorem processBlock_depr (st : ParseState) (b : Block) (g : String)
    (hg : b.guid = some g) (hm : b.deprecatedMarker = true) :
    processBlock st b =
      { st with deprecatedGuids := setAdd st.deprecatedGuids g } := by
  unfold processBlock; rw [hg, hm]; exact rfl

theorem processBlock_live (st : ParseState) (b : Block) (g : String)
    (hg : b.guid = some g) (hm : b.deprecatedMarker = false) :
    processBlock st b =
      { formatsByGuid := dictInsert st.formatsByGuid g (blockToFormatInfo g b)
        deprecatedGuids :=
          match b.replaces with
          | some rg => setAdd st.deprecatedGuids rg
          | none => st.deprecatedGuids } := by
  unfold processBlock; rw [hg, hm]; exact rfl

theorem mem_setAdd (s : List String) (g x : String) :
    x ∈ setAdd s g ↔ x ∈ s ∨ x = g := by
  unfold setAdd
  by_cases h : g ∈ s
  · rw [if_pos h]
    constructor
    · exact Or.inl
    · rintro (hx | rfl)
      · exact hx
      · exact h
  · rw [if_neg h]
    simp [List.mem_append]

theorem dep_processBlock (st : ParseState) (b : Block) (x : String) :
    x ∈ (processBlock st b).deprecatedGuids ↔
      x ∈ st.deprecatedGuids ∨ depContrib b x := by
  cases hg : b.guid with
  | none => simp [processBlock_noGuid st b hg, depContrib, hg]
  | some g =>
    cases hm : b.deprecatedMarker with
    | true =>
      rw [processBlock_depr st b g hg hm]
      simp [depContrib, hg, hm, mem_setAdd, eq_comm]
    | false =>
      rw [processBlock_live st b g hg hm]
      cases hr : b.replaces with
      | none => simp [depContrib, hg, hm, hr]
      | some rg => simp [depContrib, hg, hm, hr, mem_setAdd, eq_comm]

theorem dep_foldl (l : List Block) (st : ParseState) (x : String) :
    x ∈ (List.foldl processBlock st l).deprecatedGuids ↔
      x ∈ st.deprecatedGuids ∨ ∃ b ∈ l, depContrib b x := by
  induction l generalizing st with
  | nil => simp
  | cons b l ih =>
    simp only [List.foldl_cons, ih, dep_processBlock, List.mem_cons]
    constructor
    · rintro ((h | h) | ⟨b', hb', h⟩)
      · exact Or.inl h
      · exact Or.inr ⟨b, Or.inl rfl, h⟩
      · exact Or.inr ⟨b', Or.inr hb', h⟩
    · rintro (h | ⟨b', (rfl | hb'), h⟩)
      · exact Or.inl (Or.inl h)
      · exact Or.inl (Or.inr h)
      · exact Or.inr ⟨b', hb', h⟩

/-- Membership characterisation of the deprecated set built by
`parse_formats_file`. -/
theorem mem_deprecatedSetOf (blocks : List Block) (x : String) :
    x ∈ deprecatedSetOf blocks ↔ ∃ b ∈ blocks, depContrib b x := by
  unfold deprecatedSetOf
  rw [dep_foldl]
  simp

theorem mem_dictInsert (m : List (String × FormatInfo)) (k : String)
    (v : FormatInfo) (p : String × FormatInfo) (hp : p ∈ dictInsert m k v) :
    p ∈ m ∨ p = (k, v) := by
  unfold dictInsert at hp
  by_cases h : m.any (fun q => q.1 == k)
  · rw [if_pos h] at hp
    rcases List.mem_map.mp hp with ⟨q, hq, hq2⟩
    by_cases hqk : q.1 == k
    · right; rw [if_pos hqk] at hq2; exact hq2.symm
    · left; rw [if_neg hqk] at hq2; exact hq2 ▸ hq
  · rw [if_neg h] at hp
    rcases List.mem_append.mp hp with h1 | h1
    · exact Or.inl h1
    · exact Or.inr (List.mem_singleton.mp h1)

theorem keys_dictInsert (m : List (String × FormatInfo)) (k : String)
    (v : FormatInfo) :
    (dictInsert m k v).map Prod.fst =
      if m.any (fun q => q.1 == k) then m.map Prod.fst
      else m.map Prod.fst ++ [k] := by
  unfold dictInsert
  by_cases h : m.any (fun q => q.1 == k)
  · rw [if_pos h, if_pos h, List.map_map]
    refine List.map_congr_left (fun q _ => ?_)
    by_cases hq : q.1 == k
    · simp only [Function.comp_apply, if_pos hq]
      exact (beq_iff_eq.mp hq).symm
    · simp only [Function.comp_apply, if_neg hq]
  · rw [if_neg h, if_neg h, List.map_append]
    rfl

/-- The value stored under a key carries that key as its GUID, and the
keys of `formats_by_guid` are pairwise distinct: both are preserved by
every loop iteration. -/
def MapInv (st : ParseState) : Prop :=
  (∀ p ∈ st.formatsByGuid, p.2.guid = p.1) ∧
    (st.formatsByGuid.map Prod.fst).Nodup

theorem mapInv_processBlock (st : ParseState) (b : Block)
    (h : MapInv st) : MapInv (processBlock st b) := by
  obtain ⟨h1, h2⟩ := h
  cases hg : b.guid with
  | none => rw [processBlock_noGuid st b hg]; exact ⟨h1, h2⟩
  | some g =>
    cases hm : b.deprecatedMarker with
    | true => rw [processBlock_depr st b g hg hm]; exact ⟨h1, h2⟩
    | false =>
      rw [processBlock_live st b g hg hm]
      refine ⟨fun p hp => ?_, ?_⟩
      · rcases mem_dictInsert _ _ _ p hp with h | rfl
        · exact h1 p h
        · rfl
      · rw [keys_dictInsert]
        by_cases hmem : st.formatsByGuid.any (fun q => q.1 == g)
        · rw [if_pos hmem]; exact h2
        · rw [if_neg hmem]
          have hk : g ∉ st.formatsByGuid.map Prod.fst := by
            intro hcon
            rcases List.mem_map.mp hcon with ⟨q, hq, hqeq⟩
            exact hmem (List.any_eq_true.mpr ⟨q, hq, beq_iff_eq.mpr hqeq⟩)
          simp [List.nodup_append, h2, hk]

theorem mapInv_foldl (l : List Block) (st : ParseState) (h : MapInv st) :
    MapInv (List.foldl processBlock st l) := by
  induction l generalizing st with
  | nil => exact h
  | cons b l ih => exact ih _ (mapInv_processBlock st b h)

theorem contains_iff_mem (s : List String) (x : String) :
    s.contains x = true ↔ x ∈ s :=
  List.elem_iff

theorem dictInsert_of_not_mem (m : List (String × FormatInfo)) (k : String)
    (v : FormatInfo) (h : k ∉ m.map Prod.fst) :
    dictInsert m k v = m ++ [(k, v)] := by
  unfold dictInsert
  have hany : m.any (fun p => p.1 == k) = false := by
    rw [List.any_eq_false]
    intro p hp hbeq
    exact h (List.mem_map.mpr ⟨p, hp, beq_iff_eq.mp hbeq⟩)
  rw [hany]
  exact rfl

theorem nonDeprEntry_eq_some (b : Block) (p : String × FormatInfo) :
    nonDeprEntry b = some p ↔
      ∃ g, b.guid = some g ∧ b.deprecatedMarker = false ∧
        p = (g, blockToFormatInfo g b) := by
  unfold nonDeprEntry
  cases hg : b.guid with
  | none => simp
  | some g =>
    cases hm : b.deprecatedMarker with
    | true => simp [hm]
    | false => simp [hm, eq_comm]

/-- Under pairwise-distinct block GUIDs, the GUID map built by the loop
is the concatenation of the entries the live blocks contribute, in file
order. -/
theorem formats_foldl (l : List Block) (st : ParseState)
    (H : (st.formatsByGuid.map Prod.fst ++ blockGuids l).Nodup) :
    (List.foldl processBlock st l).formatsByGuid =
      st.formatsByGuid ++ l.filterMap nonDeprEntry := by
  induction l generalizing st with
  | nil => simp
  | cons b l ih =>
    cases hg : b.guid with
    | none =>
      have hbg : blockGuids (b :: l) = blockGuids l := by
        unfold blockGuids; rw [List.filterMap_cons, hg]
      have hne : nonDeprEntry b = none := by unfold nonDeprEntry; rw [hg]
      rw [List.foldl_cons, processBlock_noGuid st b hg,
        List.filterMap_cons, hne, ih st (by rwa [hbg] at H)]
    | some g =>
      have hbg : blockGuids (b :: l) = g :: blockGuids l := by
        unfold blockGuids; rw [List.filterMap_cons, hg]
      rw [hbg] at H
      have Hsub : (st.formatsByGuid.map Prod.fst ++ blockGuids l).Nodup :=
        H.sublist
          ((List.sublist_cons_self g (blockGuids l)).append_left _)
      cases hm : b.deprecatedMarker with
      | true =>
        have hne : nonDeprEntry b = none := by
          unfold nonDeprEntry; rw [hg, hm]; exact rfl
        rw [List.foldl_cons, processBlock_depr st b g hg hm,
          List.filterMap_cons, hne]
        exact ih _ Hsub
      | false =>
        have hne : nonDeprEntry b = some (g, blockToFormatInfo g b) := by
          unfold nonDeprEntry; rw [hg, hm]; exact rfl
        have hgkeys : g ∉ st.formatsByGuid.map Prod.fst := by
          rw [List.nodup_append] at H
          exact fun hmem => H.2.2 hmem (List.mem_cons_self g _)
        have H2 :
            (((st.formatsByGuid ++ [(g, blockToFormatInfo g b)]).map
                Prod.fst) ++ blockGuids l).Nodup := by
          rw [List.map_append, List.append_assoc]
          exact H
        rw [List.foldl_cons, processBlock_live st b g hg hm,
          List.filterMap_cons, hne,
          dictInsert_of_not_mem _ _ _ hgkeys, ih _ H2,
          List.append_assoc]
        exact rfl

/-- Under pairwise-distinct block GUIDs, `parse_formats_file` retains
exactly the non-deprecated entries whose GUID escaped the deprecated
set. -/
theorem parseFormatsFile_eq (l : List Block)
    (H : (blockGuids l).Nodup) :
    parseFormatsFile l =
      ((l.filterMap nonDeprEntry).filter
          (fun p => !((deprecatedSetOf l).contains p.1))).map
        (fun p => p.2) := by
  simp only [parseFormatsFile]
  rw [formats_foldl l ⟨[], []⟩ (by simpa using H)]
  rw [List.nil_append]
  exact rfl

/-- Membership characterisation of the retained catalog under
pairwise-distinct block GUIDs. -/
theorem mem_parseFormatsFile (l : List Block)
    (H : (blockGuids l).Nodup) (f : FormatInfo) :
    f ∈ parseFormatsFile l ↔
      (∃ b ∈ l, ∃ g, b.guid = some g ∧ b.deprecatedMarker = false ∧
          f = blockToFormatInfo g b) ∧ f.guid ∉ deprecatedSetOf l := by
  rw [parseFormatsFile_eq l H]
  constructor
  · intro hf
    rcases List.mem_map.mp hf with ⟨p, hp, rfl⟩
    rcases List.mem_filter.mp hp with ⟨hpm, hq⟩
    rcases List.mem_filterMap.mp hpm with ⟨b, hb, hbe⟩
    rcases (nonDeprEntry_eq_some b p).mp hbe with ⟨g, hg, hm, rfl⟩
    refine ⟨⟨b, hb, g, hg, hm, rfl⟩, fun hdep => ?_⟩
    rw [Bool.not_eq_true', ← Bool.not_eq_true] at hq
    exact hq ((contains_iff_mem _ _).mpr hdep)
  · rintro ⟨⟨b, hb, g, hg, hm, rfl⟩, hdep⟩
    refine List.mem_map.mpr ⟨(g, blockToFormatInfo g b), ?_, rfl⟩
    refine List.mem_filter.mpr
      ⟨List.mem_filterMap.mpr
        ⟨b, hb, (nonDeprEntry_eq_some b _).mpr ⟨g, hg, hm, rfl⟩⟩, ?_⟩
    rw [Bool.not_eq_true']
    rw [← Bool.not_eq_true]
    intro hc
    exact hdep ((contains_iff_mem _ _).mp hc)

/-- Every retained format's GUID escapes the deprecated set (no nodup
hypothesis needed). -/
theorem parseFormatsFile_not_deprecated (l : List Block) (f : FormatInfo)
    (hf : f ∈ parseFormatsFile l) : f.guid ∉ deprecatedSetOf l := by
  simp only [parseFormatsFile] at hf
  rcases List.mem_map.mp hf with ⟨p, hp, rfl⟩
  rcases List.mem_filter.mp hp with ⟨hpm, hq⟩
  have hinv := mapInv_foldl l ⟨[], []⟩ ⟨by simp, by simp⟩
  rw [hinv.1 p hpm]
  rw [Bool.not_eq_true', ← Bool.not_eq_true] at hq
  intro hdep
  exact hq ((contains_iff_mem _ _).mpr hdep)

/-- The retained catalog never holds two formats with the same GUID (no
nodup hypothesis needed). -/
theorem parseFormatsFile_guid_nodup (l : List Block) :
    ((parseFormatsFile l).map FormatInfo.guid).Nodup := by
  simp only [parseFormatsFile]
  have hinv := mapInv_foldl l ⟨[], []⟩ ⟨by simp, by simp⟩
  rw [List.map_map]
  have hcongr :
      (((List.foldl processBlock ⟨[], []⟩ l).formatsByGuid).filter
          (fun p =>
            !(((List.foldl processBlock ⟨[], []⟩ l).deprecatedGuids).contains
              p.1))).map (FormatInfo.guid ∘ fun p => p.2) =
      (((List.foldl processBlock ⟨[], []⟩ l).formatsByGuid).filter
          (fun p =>
            !(((List.foldl processBlock ⟨[], []⟩ l).deprecatedGuids).contains
              p.1))).map Prod.fst := by
    refine List.map_congr_left (fun p hp => ?_)
    exact hinv.1 p (List.mem_filter.mp hp).1
  rw [hcongr]
  exact hinv.2.sublist ((List.filter_sublist _).map Prod.fst)

/-- A live 640x480 block, used by the concrete scenarios below. -/
def blk640 : Block :=
  { guid := some "OK640", deprecatedMarker := false, replaces := none
    name := some "PI640 640x480@32Hz", out := some (640, 480, 32)
    hwrev := none, fwrev := none, deviceRes := none }

/-- A deprecation-marked 640x480 block. -/
def blk640depr : Block :=
  { guid := some "OLD640", deprecatedMarker := true, replaces := none
    name := some "PI640old 640x480@32Hz", out := some (640, 480, 32)
    hwrev := none, fwrev := none, deviceRes := none }

/-- A block whose `Name` regex found nothing (the field is optional). -/
def namelessBlock : Block :=
  { guid := some "NONAME", deprecatedMarker := false, replaces := none
    name := none, out := some (640, 480, 32)
    hwrev := none, fwrev := none, deviceRes := none }

/-- Two live blocks that carry the same GUID but different attributes. -/
def dupBlockA : Block :=
  { guid := some "DUP", deprecatedMarker := false, replaces := none
    name := some "PI400 first", out := some (382, 288, 27)
    hwrev := none, fwrev := none, deviceRes := none }

/-- Second block with the GUID of `dupBlockA` and other attributes. -/
def dupBlockB : Block :=
  { guid := some "DUP", deprecatedMarker := false, replaces := none
    name := some "PI450 second", out := some (382, 288, 80)
    hwrev := none, fwrev := none, deviceRes := none }

/-- C1: for every format-catalog file, the retained catalog has no two
formats with the same GUID and no retained GUID lies in the
deprecated-GUID set, which consists exactly of the GUIDs of
deprecation-marked blocks and the GUIDs referenced by `replaces` lines
of non-deprecated blocks; consequently a GUID referenced by a
`replaces` line of a live block is never retained, and a
deprecation-marked block's GUID is never retained. -/
theorem catalog_retained_unique_not_deprecated (blocks : List Block) :
    ((parseFormatsFile blocks).map FormatInfo.guid).Nodup ∧
    (∀ f ∈ parseFormatsFile blocks, f.guid ∉ deprecatedSetOf blocks) ∧
    (∀ x, x ∈ deprecatedSetOf blocks ↔ ∃ b ∈ blocks, depContrib b x) ∧
    (∀ b ∈ blocks, ∀ g, b.guid = some g → b.deprecatedMarker = true →
      ∀ f ∈ parseFormatsFile blocks, f.guid ≠ g) ∧
    (∀ a ∈ blocks, ∀ ga gb, a.guid = some ga →
      a.deprecatedMarker = false → a.replaces = some gb →
      ∀ f ∈ parseFormatsFile blocks, f.guid ≠ gb) := by
  refine ⟨parseFormatsFile_guid_nodup blocks,
    fun f hf => parseFormatsFile_not_deprecated blocks f hf,
    fun x => mem_deprecatedSetOf blocks x, ?_, ?_⟩
  · intro b hb g hg hm f hf heq
    have hdep : g ∈ deprecatedSetOf blocks :=
      (mem_deprecatedSetOf blocks g).mpr ⟨b, hb, g, hg, Or.inl ⟨hm, rfl⟩⟩
    exact parseFormatsFile_not_deprecated blocks f hf (heq ▸ hdep)
  · intro a ha ga gb hg hm hr f hf heq
    have hdep : gb ∈ deprecatedSetOf blocks :=
      (mem_deprecatedSetOf blocks gb).mpr ⟨a, ha, ga, hg, Or.inr ⟨hm, hr⟩⟩
    exact parseFormatsFile_not_deprecated blocks f hf (heq ▸ hdep)

/-- C1 witness: in a file with a deprecation-marked block and a live
block, the retained format's GUID differs from the deprecated one. -/
theorem catalog_retained_unique_not_deprecated_witness :
    blockToFormatInfo "OK640" blk640 ∈ parseFormatsFile [blk640depr, blk640] ∧
    (blockToFormatInfo "OK640" blk640).guid ≠ "OLD640" :=
  ⟨by decide,
   (catalog_retained_unique_not_deprecated [blk640depr, blk640]).2.2.2.1
     blk640depr (by decide) "OLD640" rfl rfl _ (by decide)⟩

/-- C2: the raw-to-temperature conversion is the total function
`celsius(raw) = raw/10 - 100`, with `celsius 1000 = 0` and
`celsius 0 = -100`, and the frame mean is the arithmetic mean of
`celsius` over all samples (equivalently, the calibrated mean of the
raw samples), computed exactly. -/
theorem celsius_conversion_spec :
    celsius 1000 = 0 ∧ celsius 0 = -100 ∧
    (∀ raw : Nat, celsius raw = (raw : ℚ) / 10 - 100) ∧
    (∀ frame : List Nat,
      meanTemperature frame = (frame.map celsius).sum / (frame.length : ℚ)) ∧
    (∀ frame : List Nat, frame ≠ [] →
      meanTemperature frame =
        ((frame.sum : ℚ) / (frame.length : ℚ)) / 10 - 100) := by
  have hsum : ∀ frame : List Nat,
      (frame.map celsius).sum =
        (frame.sum : ℚ) / 10 - 100 * (frame.length : ℚ) := by
    intro frame
    induction frame with
    | nil => simp
    | cons a l ih =>
      simp only [List.map_cons, List.sum_cons, ih, List.sum_cons,
        List.length_cons, celsius]
      push_cast
      ring
  refine ⟨by norm_num [celsius], by norm_num [celsius],
    fun raw => rfl, fun frame => rfl, fun frame hne => ?_⟩
  have hlen : (frame.length : ℚ) ≠ 0 := by
    simpa using List.length_pos.mpr hne |>.ne'
  unfold meanTemperature frameTemperatures
  rw [hsum]
  field_simp
  ring

/-- C2 witness: the mean of the two-sample frame `[1000, 0]` is the
calibrated mean of its raw values. -/
theorem celsius_conversion_spec_witness :
    ([1000, 0] : List Nat) ≠ [] ∧
    meanTemperature [1000, 0] =
      ((([1000, 0] : List Nat).sum : ℚ) /
        ((([1000, 0] : List Nat).length : ℚ))) / 10 - 100 :=
  ⟨by decide, celsius_conversion_spec.2.2.2.2 [1000, 0] (by decide)⟩

/-- C3: the centre temperature is read from the flat-buffer index
`(h/2)*w + (w/2)` with truncating integer division: 153920 for
640x480, truncation (not rounding) for 641x481, and the index is in
range for every positive frame. -/
theorem center_index_spec :
    (∀ (w h : Nat) (frame : List Nat),
      centerTempC w h frame =
        (frame.get? ((h / 2) * w + w / 2)).map celsius) ∧
    centerIndex 640 480 = 153920 ∧
    centerIndex 641 481 = 154160 ∧
    (481 : Nat) / 2 = 240 ∧ (641 : Nat) / 2 = 320 ∧
    (∀ w h : Nat, 0 < w → 0 < h → centerIndex w h < w * h) := by
  refine ⟨fun w h frame => rfl, by decide, by decide, by decide, by decide,
    fun w h hw hh => ?_⟩
  have hh2 : h / 2 ≤ h - 1 := by
    have := Nat.div_lt_self hh (by norm_num : 1 < 2)
    omega
  have hw2 : w / 2 ≤ w - 1 := by
    have := Nat.div_lt_self hw (by norm_num : 1 < 2)
    omega
  calc (h / 2) * w + w / 2
      ≤ (h - 1) * w + w / 2 := Nat.add_le_add_right (Nat.mul_le_mul_right w hh2) _
    _ ≤ (h - 1) * w + (w - 1) := Nat.add_le_add_left hw2 _
    _ < (h - 1) * w + w := Nat.add_lt_add_left (by omega) _
    _ = ((h - 1) + 1) * w := (Nat.succ_mul (h - 1) w).symm
    _ = h * w := by rw [Nat.sub_add_cancel hh]
    _ = w * h := Nat.mul_comm h w

/-- C3 witness: the in-range bound instantiated at 640x480. -/
theorem center_index_spec_witness :
    0 < 640 ∧ 0 < 480 ∧ centerIndex 640 480 < 640 * 480 :=
  ⟨by decide, by decide, center_index_spec.2.2.2.2.2 640 480 (by decide) (by decide)⟩

/-- C4: lookup-by-exact-resolution returns exactly the retained formats
whose declared output width and height equal the query; on a catalog
of two 640x480 blocks with one deprecated, it returns exactly the one
live entry. -/
theorem lookup_by_resolution_spec :
    (∀ (formats : List FormatInfo) (w h : Nat) (f : FormatInfo),
      f ∈ getFormatsByResolution formats w h ↔
        f ∈ formats ∧ f.width = some w ∧ f.height = some h) ∧
    getFormatsByResolution (parseFormatsFile [blk640, blk640depr]) 640 480 =
      [blockToFormatInfo "OK640" blk640] := by
  constructor
  · intro formats w h f
    unfold getFormatsByResolution
    rw [List.mem_filter]
    simp [Bool.and_eq_true, beq_iff_eq]
  · decide

/-- C4 witness: the membership characterisation instantiated on a
singleton catalog. -/
theorem lookup_by_resolution_spec_witness :
    blockToFormatInfo "OK640" blk640 ∈
      getFormatsByResolution [blockToFormatInfo "OK640" blk640] 640 480 :=
  (lookup_by_resolution_spec.1 [blockToFormatInfo "OK640" blk640] 640 480
    (blockToFormatInfo "OK640" blk640)).mpr ⟨by decide, by decide, by decide⟩

/-- C5: the FPS recompute never fires while the elapsed window time is
at most half a second (the counter just accumulates); when it fires,
`fps` becomes the accumulated frame count over the elapsed time, the
counter resets to zero and the anchor moves to the current time. -/
theorem fps_window_spec (st : FpsState) (now : ℚ) :
    (¬ fpsFires st now →
      fpsTick st now = { st with frameCount := st.frameCount + 1 }) ∧
    (fpsFires st now →
      (fpsTick st now).frameCount = 0 ∧
      (fpsTick st now).lastUpdateTime = now ∧
      (fpsTick st now).fps =
        ((st.frameCount + 1 : Nat) : ℚ) / (now - st.lastUpdateTime)) := by
  unfold fpsTick fpsFires
  constructor
  · intro h
    rw [if_neg h]
  · intro h
    rw [if_pos h]
    exact ⟨rfl, rfl, rfl⟩

/-- C5 witness: with the anchor at 0 the tick at time 0 only counts,
and the tick at time 1 fires, resets the counter and divides by the
elapsed second. -/
theorem fps_window_spec_witness :
    (¬ fpsFires ⟨3, 0, 0⟩ 0 ∧
      fpsTick ⟨3, 0, 0⟩ 0 = ⟨4, 0, 0⟩) ∧
    (fpsFires ⟨3, 0, 0⟩ 1 ∧
      (fpsTick ⟨3, 0, 0⟩ 1).frameCount = 0 ∧
      (fpsTick ⟨3, 0, 0⟩ 1).lastUpdateTime = 1 ∧
      (fpsTick ⟨3, 0, 0⟩ 1).fps = ((3 + 1 : Nat) : ℚ) / (1 - 0)) :=
  ⟨⟨by norm_num [fpsFires],
    (fps_window_spec ⟨3, 0, 0⟩ 0).1 (by norm_num [fpsFires])⟩,
   ⟨by norm_num [fpsFires],
    (fps_window_spec ⟨3, 0, 0⟩ 1).2 (by norm_num [fpsFires])⟩⟩

/-- C6 counterexample: after a first close of a session whose library
is loaded, the second close is not a no-op — it issues the SDK
terminate call again (the manager keeps no closed flag). -/
theorem close_counterexample :
    (deinitCamera ⟨true⟩).1 = ⟨true⟩ ∧
    (deinitCamera (deinitCamera ⟨true⟩).1).2 = [SdkCall.terminate] ∧
    (deinitCamera (deinitCamera ⟨true⟩).1).2 ≠ ([] : List SdkCall) := by
  refine ⟨rfl, rfl, ?_⟩
  decide

/-- C6 (amended): `close()` never faults and is idempotent on the
session state — a second call leaves the state unchanged and behaves
exactly like the first — and it is safe when open failed before the
library loaded (then it issues no SDK call); but when the library is
loaded every call, including the second, re-issues the SDK terminate
call, so the second close is a no-op only at the session-state level. -/
theorem close_state_idempotent (st : CameraManagerState) :
    (deinitCamera st).1 = st ∧
    (deinitCamera (deinitCamera st).1).1 = st ∧
    (deinitCamera (deinitCamera st).1).2 = (deinitCamera st).2 ∧
    (st.libirLoaded = false → (deinitCamera st).2 = []) ∧
    (st.libirLoaded = true →
      (deinitCamera (deinitCamera st).1).2 = [SdkCall.terminate]) := by
  cases st with
  | mk b =>
    cases b
    · exact ⟨rfl, rfl, rfl, fun _ => rfl, fun h => by simp at h⟩
    · exact ⟨rfl, rfl, rfl, fun h => by simp at h, fun _ => rfl⟩

/-- C6 witness: the amended statement at a loaded and an unloaded
session. -/
theorem close_state_idempotent_witness :
    ((⟨false⟩ : CameraManagerState).libirLoaded = false ∧
      (deinitCamera ⟨false⟩).2 = []) ∧
    ((⟨true⟩ : CameraManagerState).libirLoaded = true ∧
      (deinitCamera (deinitCamera ⟨true⟩).1).2 = [SdkCall.terminate]) :=
  ⟨⟨rfl, (close_state_idempotent ⟨false⟩).2.2.2.1 rfl⟩,
   ⟨rfl, (close_state_idempotent ⟨true⟩).2.2.2.2 rfl⟩⟩

/-- C7: a tick whose acquire call reports a non-zero status leaves the
whole loop state (open flag, dimensions, palette, shutter mode, frame
counter and FPS accounting) unchanged, publishes nothing, and the next
tick behaves exactly as if the failing tick had not happened. -/
theorem acquire_failure_skips_tick (st : LoopState) (ret : Int)
    (frame : List Nat) (now : ℚ) (h : ret ≠ 0) :
    updateFrame st ret frame now = (st, none) ∧
    (∀ (ret2 : Int) (frame2 : List Nat) (now2 : ℚ),
      updateFrame (updateFrame st ret frame now).1 ret2 frame2 now2 =
        updateFrame st ret2 frame2 now2) := by
  have h1 : updateFrame st ret frame now = (st, none) := by
    unfold updateFrame
    rw [if_pos h]
  exact ⟨h1, fun ret2 frame2 now2 => by rw [h1]⟩

/-- C7 witness: a failing tick (status -1) on a concrete loop state. -/
theorem acquire_failure_skips_tick_witness :
    (-1 : Int) ≠ 0 ∧
    updateFrame ⟨true, 640, 480, 6, 1, ⟨0, 0, 0⟩⟩ (-1) [] 0 =
      (⟨true, 640, 480, 6, 1, ⟨0, 0, 0⟩⟩, none) :=
  ⟨by decide,
   (acquire_failure_skips_tick ⟨true, 640, 480, 6, 1, ⟨0, 0, 0⟩⟩ (-1) [] 0
     (by decide)).1⟩

/-- C8 counterexample: two blocks sharing a GUID make the retained
catalog depend on block order — the later block's attributes win, so
swapping the blocks changes the retained set of formats. -/
theorem blocks_order_counterexample :
    List.Perm [dupBlockA, dupBlockB] [dupBlockB, dupBlockA] ∧
    blockToFormatInfo "DUP" dupBlockA ∈ parseFormatsFile [dupBlockB, dupBlockA] ∧
    blockToFormatInfo "DUP" dupBlockA ∉ parseFormatsFile [dupBlockA, dupBlockB] :=
  ⟨List.Perm.swap dupBlockB dupBlockA [], by decide, by decide⟩

/-- C8 (amended): provided no two blocks of the file carry the same
GUID, any permutation of the blocks yields the same retained catalog
as a set of formats with their parsed attributes. -/
theorem blocks_perm_invariant (l l2 : List Block)
    (H : (blockGuids l).Nodup) (hp : l.Perm l2) (f : FormatInfo) :
    f ∈ parseFormatsFile l ↔ f ∈ parseFormatsFile l2 := by
  have H2 : (blockGuids l2).Nodup := by
    unfold blockGuids at H ⊢
    exact ((hp.filterMap Block.guid).nodup_iff).mp H
  rw [mem_parseFormatsFile l H f, mem_parseFormatsFile l2 H2 f]
  have hdep : ∀ x, x ∈ deprecatedSetOf l ↔ x ∈ deprecatedSetOf l2 := by
    intro x
    rw [mem_deprecatedSetOf, mem_deprecatedSetOf]
    constructor
    · rintro ⟨b, hb, h⟩; exact ⟨b, hp.mem_iff.mp hb, h⟩
    · rintro ⟨b, hb, h⟩; exact ⟨b, hp.mem_iff.mpr hb, h⟩
  constructor
  · rintro ⟨⟨b, hb, hrest⟩, hd⟩
    exact ⟨⟨b, hp.mem_iff.mp hb, hrest⟩, fun hx => hd ((hdep _).mpr hx)⟩
  · rintro ⟨⟨b, hb, hrest⟩, hd⟩
    exact ⟨⟨b, hp.mem_iff.mpr hb, hrest⟩, fun hx => hd ((hdep _).mp hx)⟩

/-- C8 witness: on a duplicate-free two-block file, swapping the blocks
preserves membership of the retained format. -/
theorem blocks_perm_invariant_witness :
    (blockGuids [blk640, blk640depr]).Nodup ∧
    (blockToFormatInfo "OK640" blk640 ∈ parseFormatsFile [blk640, blk640depr] ↔
      blockToFormatInfo "OK640" blk640 ∈ parseFormatsFile [blk640depr, blk640]) :=
  ⟨by decide,
   blocks_perm_invariant [blk640, blk640depr] [blk640depr, blk640]
     (by decide) (List.Perm.swap blk640depr blk640 []) _⟩

/-- C9: a block may lack the optional `Name` field and is still
retained (only a missing GUID skips a block), but `group-by-model`
then fails with a `KeyError` instead of placing the format in a group:
the code crashes on a legally retained format. -/
theorem group_missing_name_keyerror :
    parseFormatsFile [namelessBlock] =
      [blockToFormatInfo "NONAME" namelessBlock] ∧
    (blockToFormatInfo "NONAME" namelessBlock).name = none ∧
    getFormatsGroupedByModel (parseFormatsFile [namelessBlock]) =
      Except.error "KeyError: name" :=
  ⟨rfl, rfl, rfl⟩

/-- C10: after every successful open, `init_camera` issues the
set-shutter-mode call with the Auto mode id 1 as its last
configuration call, and returns success regardless of that call's
status; a failed open issues no configuration call. -/
theorem init_sets_auto_shutter (paletteId shutterRet : Int) :
    SHUTTER_MODE_AUTO = 1 ∧
    (appInitCamera true paletteId shutterRet).1 = true ∧
    (appInitCamera true paletteId shutterRet).2.getLast? =
      some (SdkCall.setShutterMode SHUTTER_MODE_AUTO) ∧
    SdkCall.setShutterMode 1 ∈ (appInitCamera true paletteId shutterRet).2 ∧
    (appInitCamera false paletteId shutterRet).2 = [] :=
  ⟨rfl, rfl, rfl, by simp [appInitCamera, SHUTTER_MODE_AUTO], rfl⟩
